import Mathlib

/-!
Shallow embedding, in Lean 4, of the discovery-and-validation pipeline of the
repository (tvbox_search.py, tvbox_merger.py, search_github_urls.py), together
with theorems settling the specified behavioural claims.

Conventions of the embedding:
* machine strings are Lean `String`; JSON documents are an inductive `Json`
  value, with parse failure of `json.loads` represented as `Option.none`;
* timestamps are integers counting seconds, so `timedelta(days=30)` is the
  constant `30 * 86400`;
* network responses are an explicit outcome datatype (`ProbeOutcome`), with one
  constructor per `except` branch of the Python code, so catching an exception
  is an ordinary `match`;
* the SHA-256 digest is abstracted as an arbitrary function parameter
  `hashFn : String → String`, since the claims concern control flow around the
  digest, never its arithmetic.
-/

namespace StrOps

/-- Python str.startswith on the character sequence of the strings. -/
def startsWithL (s p : String) : Bool := p.data.isPrefixOf s.data

/-- Python character count len(s). -/
def lengthL (s : String) : Nat := s.data.length

/-- Python slice s[n:] by character count. -/
def dropL (s : String) (n : Nat) : String := String.mk (s.data.drop n)

/-- Longest prefix of the characters of s satisfying f. -/
def takeWhileL (s : String) (f : Char → Bool) : String :=
  String.mk (s.data.takeWhile f)

/-- Python str.strip(): remove leading and trailing whitespace. -/
def trimL (s : String) : String :=
  String.mk
    (((s.data.dropWhile Char.isWhitespace).reverse.dropWhile
        Char.isWhitespace).reverse)

end StrOps

open StrOps

namespace TvboxSearch

/-- Model of a parsed Python JSON value as produced by `json.loads`: objects
are association lists in document order. -/
inductive Json where
  | null : Json
  | bool (b : Bool) : Json
  | num (n : Int) : Json
  | str (s : String) : Json
  | arr (elems : List Json) : Json
  | obj (fields : List (String × Json)) : Json

/-- Model of a Python dict lookup `d[key]` together with the `key in d` test:
first binding of the key in the association list. -/
def getField (fields : List (String × Json)) (key : String) : Option Json :=
  (fields.find? (fun kv => kv.1 == key)).map (fun kv => kv.2)

/-- Embeds the per-site test of tvbox_search.validate_tvbox_interface line 53:
`isinstance(site, dict) and ('api' in site or 'url' in site)`. -/
def siteHasApiOrUrl : Json → Bool
  | Json.obj f => (getField f "api").isSome || (getField f "url").isSome
  | _ => false

/-- Embeds the per-live test of tvbox_search.validate_tvbox_interface line 56:
`isinstance(live, dict) and 'channels' in live`. -/
def liveHasChannels : Json → Bool
  | Json.obj f => (getField f "channels").isSome
  | _ => false

/-- Embeds `key in data and isinstance(data[key], list)`. -/
def isListField (fields : List (String × Json)) (key : String) : Bool :=
  match getField fields key with
  | some (Json.arr _) => true
  | _ => false

/-- Embeds `'spider' in data and isinstance(data['spider'], str) and
data['spider'].strip()` coerced to its truth value: Python strip of
whitespace is `String.trim`, and a string is truthy when nonempty. -/
def spiderField (fields : List (String × Json)) : Bool :=
  match getField fields "spider" with
  | some (Json.str s) => !(trimL s == "")
  | _ => false

/-- Embeds `any(isinstance(site, dict) and ('api' in site or 'url' in site)
for site in data['sites'])`; false when the sites field is not a list. -/
def sitesAny (fields : List (String × Json)) : Bool :=
  match getField fields "sites" with
  | some (Json.arr sites) => sites.any siteHasApiOrUrl
  | _ => false

/-- Embeds `any(isinstance(live, dict) and 'channels' in live for live in
data['lives'])`; false when the lives field is not a list. -/
def livesAny (fields : List (String × Json)) : Bool :=
  match getField fields "lives" with
  | some (Json.arr lives) => lives.any liveHasChannels
  | _ => false

/-- Embeds tvbox_search.validate_tvbox_interface (lines 39-64). The argument
is the result of `json.loads`: `none` is a parse failure, caught by the
`except json.JSONDecodeError` branch, which returns False. A parsed value
that is not a dict returns False (line 43). Otherwise the function computes
has_sites, has_lives, has_spider and runs the chain of acceptance tests in
source order. -/
def validate_tvbox_interface : Option Json → Bool
  | none => false
  | some (Json.obj fields) =>
    let has_sites := isListField fields "sites"
    let has_lives := isListField fields "lives"
    let has_spider := spiderField fields
    if !(has_sites || has_lives || has_spider) then false
    else if has_sites && sitesAny fields then true
    else if has_lives && livesAny fields then true
    else if has_spider then true
    else false
  | some _ => false

/-- Written from the words of the spec, for comparison with the code: a
sites-like list where at least one entry carries an API or URL field. -/
def specSitesShape : Option Json → Bool
  | some (Json.obj fields) =>
    match getField fields "sites" with
    | some (Json.arr sites) => sites.any siteHasApiOrUrl
    | _ => false
  | _ => false

/-- Written from the words of the spec, for comparison with the code: a
lives-like list where at least one entry carries a channels field. -/
def specLivesShape : Option Json → Bool
  | some (Json.obj fields) =>
    match getField fields "lives" with
    | some (Json.arr lives) => lives.any liveHasChannels
    | _ => false
  | _ => false

/-- Written from the words of the spec, for comparison with the code: a
non-empty spider string reference. -/
def specSpiderShape : Option Json → Bool
  | some (Json.obj fields) => spiderField fields
  | _ => false

/-- Concrete payload of the spec example that must fail validation. -/
def sitesOnlyKey : Json :=
  Json.obj [("sites", Json.arr [Json.obj [("key", Json.str "k")]])]

/-- Concrete payload of the spec example that must pass validation. -/
def sitesWithApi : Json :=
  Json.obj [("sites", Json.arr
    [Json.obj [("key", Json.str "k"), ("api", Json.str "http://x")]])]

lemma sitesAny_imp (fields : List (String × Json)) :
    sitesAny fields = true → isListField fields "sites" = true := by
  unfold sitesAny isListField
  cases h : getField fields "sites" with
  | none => simp
  | some j => cases j <;> simp

lemma livesAny_imp (fields : List (String × Json)) :
    livesAny fields = true → isListField fields "lives" = true := by
  unfold livesAny isListField
  cases h : getField fields "lives" with
  | none => simp
  | some j => cases j <;> simp

lemma validate_obj_eq (fields : List (String × Json)) :
    validate_tvbox_interface (some (Json.obj fields)) =
      (sitesAny fields || livesAny fields || spiderField fields) := by
  have h1 := sitesAny_imp fields
  have h2 := livesAny_imp fields
  simp only [validate_tvbox_interface]
  cases hs : isListField fields "sites" <;>
    cases hl : isListField fields "lives" <;>
    cases hp : spiderField fields <;>
    cases ha : sitesAny fields <;>
    cases hb : livesAny fields <;>
    simp_all

lemma validate_eq_spec (p : Option Json) :
    validate_tvbox_interface p =
      (specSitesShape p || specLivesShape p || specSpiderShape p) := by
  match p with
  | none => rfl
  | some (Json.obj fields) =>
    rw [validate_obj_eq]
    rfl
  | some Json.null => rfl
  | some (Json.bool b) => rfl
  | some (Json.num n) => rfl
  | some (Json.str s) => rfl
  | some (Json.arr l) => rfl

/-- Record of the on-disk search cache, one entry per discovered item
(tvbox_search.py search_cache.json): source metadata plus a last-modified
timestamp, modeled as seconds since the epoch after the
`datetime.fromisoformat` parse of load_cache line 101. -/
structure CacheRecord where
  file_name : String
  path : String
  repo : String
  last_modified : Int
deriving DecidableEq

/-- Embeds the expiry filter of tvbox_search.load_cache (lines 92-105): with
load time `now`, `expiry_date = now - timedelta(days=30)` and an entry is
kept exactly when its parsed last-modified instant is strictly greater than
`expiry_date`. File input and the enclosing exception handler are outside
the model; the argument is the parsed content of the cache file. -/
def load_cache (now : Int) (cache : List (String × CacheRecord)) :
    List (String × CacheRecord) :=
  let expiry_date := now - 30 * 86400
  cache.filter (fun kv => expiry_date < kv.2.last_modified)

/-- Embeds the pagination loop body of tvbox_search.process_query
(lines 210-265) as the list of page numbers for which search_github is
invoked. The oracle `items` gives the number of items each page returns,
`total_count` the reported total. After a non-empty page the loop increments
`page` and breaks when `page * 100 >= total_count`; it also breaks on an
empty page, and the while guard stops past max_pages (the fuel). -/
def paginateFrom (items : Nat → Nat) (total_count : Nat) :
    Nat → Nat → List Nat
  | _, 0 => []
  | page, Nat.succ fuel =>
    if items page = 0 then [page]
    else if total_count ≤ (page + 1) * 100 then [page]
    else page :: paginateFrom items total_count (page + 1) fuel

/-- Pages fetched by one run of the pagination loop, starting at page 1 with
the configured max_pages ceiling. -/
def fetchedPages (items : Nat → Nat) (total_count max_pages : Nat) : List Nat :=
  paginateFrom items total_count 1 max_pages

/-- Mutable state threaded through the per-content loop of process_query:
the persisted content-hash index, the in-run hash set, the valid counter and
the bodies saved by save_valid_file. -/
structure RunState where
  content_hashes : List String
  downloaded_content_hashes : List String
  valid_files : Nat
  saved_files : List String
deriving DecidableEq

/-- Decision taken by process_query for one downloaded body (branches of
lines 235-258). -/
inductive ItemDecision where
  | fetch_error : ItemDecision
  | dup_local : ItemDecision
  | dup_run : ItemDecision
  | saved : ItemDecision
  | invalid : ItemDecision
deriving DecidableEq

/-- Embeds the handling of one downloaded body in tvbox_search.process_query
(lines 235-258): a fetch error is skipped; then the digest of the body is
tested against the persisted index, then against the in-run set, and only
then is the validator consulted; on success the body is saved and both hash
sets grow. `hashFn` abstracts `hashlib.sha256(...).hexdigest()` and
`validator` abstracts validate_tvbox_interface composed with parsing. -/
def processOne (hashFn : String → String) (validator : String → Bool)
    (st : RunState) (content : Option String) : RunState × ItemDecision :=
  match content with
  | none => (st, ItemDecision.fetch_error)
  | some c =>
    let content_hash := hashFn c
    if st.content_hashes.contains content_hash then
      (st, ItemDecision.dup_local)
    else if st.downloaded_content_hashes.contains content_hash then
      (st, ItemDecision.dup_run)
    else if validator c then
      ({ content_hashes := st.content_hashes ++ [content_hash],
         downloaded_content_hashes :=
           st.downloaded_content_hashes ++ [content_hash],
         valid_files := st.valid_files + 1,
         saved_files := st.saved_files ++ [c] }, ItemDecision.saved)
    else
      (st, ItemDecision.invalid)

/-- Statistics record of query_stats.json: counts of valid and total items
for one query. -/
structure QueryStats where
  valid : Nat
  total : Nat
deriving DecidableEq

/-- Embeds query_priority of search_and_save_tvbox_interfaces (lines
301-304): the stats table lookup defaults to valid 0, total 1, and the
hit-rate is valid divided by max(total, 1), computed exactly in ℚ. -/
def query_priority (stats : String → Option QueryStats) (query : String) : ℚ :=
  let stats_data := (stats query).getD (QueryStats.mk 0 1)
  (stats_data.valid : ℚ) / ((max stats_data.total 1 : Nat) : ℚ)

/-- Comparison induced by `sort(key=query_priority, reverse=True)`: a query
may precede another exactly when its hit-rate is at least as large. -/
def queriesLe (stats : String → Option QueryStats) (a b : String) : Bool :=
  decide (query_priority stats b ≤ query_priority stats a)

/-- Embeds `queries.sort(key=query_priority, reverse=True)` (line 305):
Python list.sort is a stable sort, and with reverse=True an element precedes
another exactly when its key is greater or equal; the embedding is the
verified stable mergeSort under that comparison. -/
def sortQueries (stats : String → Option QueryStats)
    (queries : List String) : List String :=
  queries.mergeSort (queriesLe stats)

end TvboxSearch

namespace TvboxMerger

open TvboxSearch (Json)

/-- Proxy prefix table of tvbox_merger.strip_proxy (lines 29-34). -/
def proxies : List String :=
  ["https://ghproxy.com/",
   "https://ghp.ci/",
   "https://raw.gitmirror.com/",
   "https://github.3x25.com/",]

/-- Excluded domain table of tvbox_merger.py line 23. -/
def EXCLUDED_DOMAINS : List String := ["agit.ai", "gitcode.net", "cccimg.com"]

/-- Embeds tvbox_merger.strip_proxy (lines 25-42): the first prefix of the
table that the URL starts with is removed, and the remainder is requalified
with an https scheme unless it already carries one. -/
def strip_proxy (url : String) : String :=
  match proxies.find? (fun p => startsWithL url p) with
  | some p =>
    let original_url := dropL url (lengthL p)
    if startsWithL original_url "http://" || startsWithL original_url "https://"
    then original_url
    else "https://" ++ original_url
  | none => url

/-- Host part of a URL up to the first slash, question mark or hash sign. -/
def netlocOf (s : String) : String :=
  takeWhileL s (fun c => c != '/' && c != '?' && c != '#')

/-- Scheme extracted by urllib.parse.urlparse, restricted to the http and
https URLs this pipeline handles; other inputs yield the empty scheme and
are rejected by the format guard exactly as a scheme-less string would be. -/
def urlScheme (url : String) : String :=
  if startsWithL url "http://" then "http"
  else if startsWithL url "https://" then "https"
  else ""

/-- Netloc extracted by urllib.parse.urlparse, restricted to http and https
URLs as above. -/
def urlNetloc (url : String) : String :=
  if startsWithL url "http://" then netlocOf (dropL url 7)
  else if startsWithL url "https://" then netlocOf (dropL url 8)
  else ""

/-- Outcome of one network probe, one constructor per handler of the Python
code: a response with a status code, an aiohttp.ClientError, an
asyncio.TimeoutError, or any other exception. -/
inductive ProbeOutcome where
  | statusResp (code : Nat) : ProbeOutcome
  | clientErr : ProbeOutcome
  | timeoutErr : ProbeOutcome
  | otherErr : ProbeOutcome

/-- Embeds tvbox_merger.is_valid_url (lines 44-89) as a decision procedure:
strip the proxy prefix, reject on empty scheme or netloc, reject an excluded
domain, consult the memo cache, then issue the HEAD probe through the `net`
oracle; a response is valid exactly when its status equals 200, and every
exception branch returns false. The cache-size reset only mutates state and
does not affect the returned value, so it is outside the model. -/
def is_valid_url (url : String) (cache : List (String × Bool))
    (net : String → ProbeOutcome) : Bool :=
  let url_to_check := strip_proxy url
  let domain := urlNetloc url_to_check
  if urlScheme url_to_check == "" || domain == "" then false
  else if EXCLUDED_DOMAINS.contains domain then false
  else
    match (cache.find? (fun kv => kv.1 == url_to_check)).map (fun kv => kv.2)
    with
    | some b => b
    | none =>
      match net url_to_check with
      | ProbeOutcome.statusResp code => code == 200
      | _ => false

end TvboxMerger

namespace SearchGithubUrls

open TvboxMerger (ProbeOutcome)

/-- Embeds search_github_urls.check_url_validity_async (lines 133-155): a GET
response with status at least 200 and below 400 returns the URL itself,
any other status returns None, and every exception branch returns None. -/
def check_url_validity (url : String) (r : ProbeOutcome) : Option String :=
  match r with
  | ProbeOutcome.statusResp code =>
    if 200 ≤ code ∧ code < 400 then some url else none
  | _ => none

end SearchGithubUrls

open TvboxSearch TvboxMerger SearchGithubUrls

set_option maxRecDepth 8192

/-- Claim C1: whenever the digest of a fetched body is already in the
persisted content-hash index or in the in-run hash set, process_query skips
the body, leaves the run state unchanged, and never consults the structural
validator (the outcome is the same for every validator function); the
content-hash tests run strictly before validation. -/
theorem C1_dedup_precedes_validation (hashFn : String → String)
    (v v2 : String → Bool) (st : RunState) (c : String)
    (h : hashFn c ∈ st.content_hashes ∨
         hashFn c ∈ st.downloaded_content_hashes) :
    (processOne hashFn v st (some c)).1 = st ∧
    ((processOne hashFn v st (some c)).2 = ItemDecision.dup_local ∨
     (processOne hashFn v st (some c)).2 = ItemDecision.dup_run) ∧
    processOne hashFn v st (some c) = processOne hashFn v2 st (some c) := by
  by_cases hm : hashFn c ∈ st.content_hashes
  · simp [processOne, hm]
  · have hd : hashFn c ∈ st.downloaded_content_hashes := h.resolve_left hm
    simp [processOne, hm, hd]

/-- Witness for C1 at a concrete state whose persisted index already holds
the digest of the body. -/
theorem C1_dedup_precedes_validation_witness :
    (processOne id (fun _ => true) (RunState.mk ["h"] [] 0 []) (some "h")).1
      = RunState.mk ["h"] [] 0 [] ∧
    ((processOne id (fun _ => true) (RunState.mk ["h"] [] 0 []) (some "h")).2
        = ItemDecision.dup_local ∨
     (processOne id (fun _ => true) (RunState.mk ["h"] [] 0 []) (some "h")).2
        = ItemDecision.dup_run) ∧
    processOne id (fun _ => true) (RunState.mk ["h"] [] 0 []) (some "h")
      = processOne id (fun _ => false) (RunState.mk ["h"] [] 0 []) (some "h") :=
  C1_dedup_precedes_validation id (fun _ => true) (fun _ => false)
    (RunState.mk ["h"] [] 0 []) "h" (Or.inl (by simp))

/-- Counterexample to claim C2 as stated: with total_count 250 and every
page returning 100 items, the loop fetches only pages 1 and 2 and never
requests page 3, because the stop test compares the incremented page number
times 100 against the total rather than the cumulative item count. -/
theorem C2_pagination_counterexample :
    fetchedPages (fun _ => 100) 250 10 = [1, 2] ∧
    3 ∉ fetchedPages (fun _ => 100) 250 10 := by
  constructor
  · rfl
  · decide

/-- Unfolding equation of the pagination loop for one remaining page of
fuel. -/
lemma paginateFrom_succ (items : Nat → Nat) (total_count page fuel : Nat) :
    paginateFrom items total_count page (fuel + 1) =
      if items page = 0 then [page]
      else if total_count ≤ (page + 1) * 100 then [page]
      else page :: paginateFrom items total_count (page + 1) fuel := rfl

/-- Claim C2 as amended: pagination stops on an empty page, on the
max-pages ceiling, or as soon as the incremented page number times the page
size reaches the reported total; hence with total_count 250 and non-empty
pages, exactly pages 1 and 2 are fetched and pagination stops after
page 2. -/
theorem C2_pagination_amended (items : Nat → Nat) (max_pages : Nat)
    (hmp : 2 ≤ max_pages) (h1 : items 1 ≠ 0) (h2 : items 2 ≠ 0) :
    fetchedPages items 250 max_pages = [1, 2] := by
  obtain ⟨k, rfl⟩ : ∃ k, max_pages = k + 2 := ⟨max_pages - 2, by omega⟩
  rw [fetchedPages, show k + 2 = (k + 1) + 1 from rfl, paginateFrom_succ,
    if_neg h1, if_neg (by norm_num), paginateFrom_succ, if_neg h2,
    if_pos (by norm_num)]

/-- Witness for the amended C2 at a concrete oracle whose pages all return
50 items. -/
theorem C2_pagination_amended_witness :
    fetchedPages (fun _ => 50) 250 5 = [1, 2] :=
  C2_pagination_amended (fun _ => 50) 5 (by norm_num) (by decide) (by decide)

/-- Counterexample to claim C3 as stated: the reachability probe of
tvbox_merger (is_valid_url, a HEAD request) returns false on an HTTP 301
response, because it accepts only status exactly 200. -/
theorem C3_probe_counterexample :
    is_valid_url "https://raw.example.com/x.m3u8" []
      (fun _ => ProbeOutcome.statusResp 301) = false := by
  decide

/-- Claim C3 as amended: the GET-based checker of search_github_urls
accepts exactly the statuses in the interval from 200 up to but excluding
400 (so 301 is accepted, 404 is not) and maps a timeout to None without
raising; the HEAD-based probe of tvbox_merger instead accepts only status
exactly 200, so 301 yields false there, and a timeout yields false. -/
theorem C3_probe_amended (u : String) (code : Nat) :
    (check_url_validity u (ProbeOutcome.statusResp code) = some u ↔
      200 ≤ code ∧ code < 400) ∧
    check_url_validity u (ProbeOutcome.statusResp 301) = some u ∧
    check_url_validity u (ProbeOutcome.statusResp 404) = none ∧
    check_url_validity u ProbeOutcome.timeoutErr = none ∧
    is_valid_url "https://raw.example.com/x.m3u8" []
      (fun _ => ProbeOutcome.statusResp 200) = true ∧
    is_valid_url "https://raw.example.com/x.m3u8" []
      (fun _ => ProbeOutcome.statusResp 301) = false ∧
    is_valid_url "https://raw.example.com/x.m3u8" []
      (fun _ => ProbeOutcome.timeoutErr) = false := by
  refine ⟨?_, by simp [check_url_validity], by simp [check_url_validity],
    rfl, by decide, by decide, by decide⟩
  by_cases h : 200 ≤ code ∧ code < 400 <;> simp [check_url_validity, h]

/-- Counterexample to claim C5 as stated: a record whose age is exactly 30
days is at most 30 days old, yet load_cache drops it, because the retention
filter is strict. -/
theorem C5_ttl_counterexample :
    ("k", CacheRecord.mk "f" "p" "r" 0) ∉
      load_cache 2592000 [("k", CacheRecord.mk "f" "p" "r" 0)] := by
  decide

/-- Claim C5 as amended: an entry of the on-disk cache survives loading
exactly when its last-modified instant is strictly later than 30 days
before the load time; every record 30 or more days old is absent from the
result, and every strictly younger record is retained. -/
theorem C5_ttl_amended (now : Int)
    (entries : List (String × CacheRecord)) (kv : String × CacheRecord) :
    kv ∈ load_cache now entries ↔
      kv ∈ entries ∧ now - 30 * 86400 < kv.2.last_modified := by
  simp [load_cache, List.mem_filter]

/-- Claim C6: the validator accepts a payload exactly when it is an object
exposing a sites list with an entry carrying an api or url field, a lives
list with an entry carrying a channels field, or a non-empty spider string;
in particular the spec example with only a key field fails and the example
with an api field passes. -/
theorem C6_validator_shapes :
    (∀ p : Option Json,
      validate_tvbox_interface p = true ↔
        (specSitesShape p || specLivesShape p || specSpiderShape p) = true) ∧
    validate_tvbox_interface (some sitesOnlyKey) = false ∧
    validate_tvbox_interface (some sitesWithApi) = true := by
  refine ⟨fun p => ?_, by decide, by decide⟩
  rw [validate_eq_spec]

/-- Claim C7: the validator is a total function of the parse result; a
parse failure yields false, and a parsed document lacking all three
accepted shapes yields false, so no failure escapes the validation
boundary. -/
theorem C7_validator_total (d : Json)
    (h : (specSitesShape (some d) || specLivesShape (some d)
          || specSpiderShape (some d)) = false) :
    validate_tvbox_interface none = false ∧
    validate_tvbox_interface (some d) = false :=
  ⟨rfl, by rw [validate_eq_spec]; exact h⟩

/-- Witness for C7 at the empty object, which parses but carries none of
the accepted shapes. -/
theorem C7_validator_total_witness :
    validate_tvbox_interface none = false ∧
    validate_tvbox_interface (some (Json.obj [])) = false :=
  C7_validator_total (Json.obj []) (by decide)

/-- Claim C9: a parsed document whose top-level value is not an object is
rejected by the validator, whatever its nested content. -/
theorem C9_top_level_not_object (d : Json)
    (h : ∀ fields, d ≠ Json.obj fields) :
    validate_tvbox_interface (some d) = false := by
  cases d with
  | obj fields => exact absurd rfl (h fields)
  | null => rfl
  | bool b => rfl
  | num n => rfl
  | str s => rfl
  | arr l => rfl

/-- Witness for C9 at a top-level array wrapping a payload that would
satisfy the sites shape if it were the top-level object. -/
theorem C9_top_level_not_object_witness :
    validate_tvbox_interface (some (Json.arr [sitesWithApi])) = false :=
  C9_top_level_not_object (Json.arr [sitesWithApi])
    (fun _ h => Json.noConfusion h)

lemma urlScheme_ne_of_netloc (u : String) :
    urlNetloc u ≠ "" → urlScheme u ≠ "" := by
  unfold urlNetloc urlScheme
  by_cases h1 : startsWithL u "http://" <;>
    by_cases h2 : startsWithL u "https://" <;>
    simp [h1, h2]

/-- Claim C8: strip_proxy rewrites the spec example to the bare raw URL;
is_valid_url consults the network oracle only at the normalized URL (so its
verdict is unchanged by any oracle agreeing there), and a normalized URL
whose host is excluded is rejected with the same verdict under every
oracle, hence without any network call. -/
theorem C8_normalization_first (url : String) (cache : List (String × Bool))
    (net net2 : String → ProbeOutcome) :
    strip_proxy "https://ghproxy.com/https://raw.example.com/x.m3u8"
      = "https://raw.example.com/x.m3u8" ∧
    (net (strip_proxy url) = net2 (strip_proxy url) →
      is_valid_url url cache net = is_valid_url url cache net2) ∧
    (EXCLUDED_DOMAINS.contains (urlNetloc (strip_proxy url)) = true →
      is_valid_url url cache net = false) := by
  refine ⟨by decide, fun hnet => ?_, fun hmem => ?_⟩
  · simp only [is_valid_url]
    rw [hnet]
  · have hdom : urlNetloc (strip_proxy url) ≠ "" := by
      intro he
      rw [he] at hmem
      exact absurd hmem (by decide)
    have hsch := urlScheme_ne_of_netloc _ hdom
    have hc1 : (urlScheme (strip_proxy url) == ""
        || urlNetloc (strip_proxy url) == "") = false := by
      simp [hsch, hdom]
    have hmem2 : urlNetloc (strip_proxy url) ∈ EXCLUDED_DOMAINS := by
      simpa using hmem
    simp [is_valid_url, hc1, hmem2]

/-- Witness for C8 at a proxied URL whose normalized host is on the
exclusion list. -/
theorem C8_normalization_first_witness :
    is_valid_url "https://ghproxy.com/https://agit.ai/x" []
        (fun _ => ProbeOutcome.statusResp 200)
      = is_valid_url "https://ghproxy.com/https://agit.ai/x" []
        (fun _ => ProbeOutcome.statusResp 200) ∧
    is_valid_url "https://ghproxy.com/https://agit.ai/x" []
        (fun _ => ProbeOutcome.statusResp 200) = false :=
  ⟨(C8_normalization_first "https://ghproxy.com/https://agit.ai/x" []
      (fun _ => ProbeOutcome.statusResp 200)
      (fun _ => ProbeOutcome.statusResp 200)).2.1 rfl,
   (C8_normalization_first "https://ghproxy.com/https://agit.ai/x" []
      (fun _ => ProbeOutcome.statusResp 200)
      (fun _ => ProbeOutcome.statusResp 200)).2.2 (by decide)⟩

lemma queriesLe_trans (stats : String → Option QueryStats)
    (a b c : String) (hab : queriesLe stats a b) (hbc : queriesLe stats b c) :
    queriesLe stats a c := by
  simp only [queriesLe, decide_eq_true_eq] at *
  exact le_trans hbc hab

lemma queriesLe_total (stats : String → Option QueryStats) (a b : String) :
    queriesLe stats a b || queriesLe stats b a := by
  simp only [queriesLe, Bool.or_eq_true, decide_eq_true_eq]
  exact le_total _ _

lemma sortQueries_pairwise (stats : String → Option QueryStats)
    (queries : List String) :
    (sortQueries stats queries).Pairwise
      (fun a b => query_priority stats b ≤ query_priority stats a) := by
  have h := List.sorted_mergeSort (queriesLe_trans stats)
    (queriesLe_total stats) queries
  exact h.imp (fun hab => by
    simpa [queriesLe, decide_eq_true_eq] using hab)

/-- Claim C4: the scheduler ordering is a permutation of the query list,
pairwise sorted in descending hit-rate (valid over max(total, 1)), and
stable: a pair of queries with equal hit-rate appearing in order in the
input appears in the same order in the output. -/
theorem C4_scheduler_order (stats : String → Option QueryStats)
    (queries : List String) :
    (sortQueries stats queries).Perm queries ∧
    (sortQueries stats queries).Pairwise
      (fun a b => query_priority stats b ≤ query_priority stats a) ∧
    (∀ q1 q2 : String,
      query_priority stats q1 = query_priority stats q2 →
      [q1, q2].Sublist queries →
      [q1, q2].Sublist (sortQueries stats queries)) := by
  refine ⟨List.mergeSort_perm queries _, sortQueries_pairwise stats queries,
    fun q1 q2 hpq hsub => ?_⟩
  exact List.pair_sublist_mergeSort (queriesLe_trans stats)
    (queriesLe_total stats) (by simp [queriesLe, hpq]) hsub

/-- Witness for C4: two queries without statistics tie at hit-rate zero and
keep their original order through the sort. -/
theorem C4_scheduler_order_witness :
    [("a" : String), "b"].Sublist (sortQueries (fun _ => none) ["a", "b"]) :=
  (C4_scheduler_order (fun _ => none) ["a", "b"]).2.2 "a" "b" rfl
    (List.Sublist.refl _)

/-- Claim C10: a query absent from the statistics table receives the
default record of zero valid out of one total, hence hit-rate zero, and in
the computed order any query with strictly positive hit-rate comes strictly
before any query without recorded statistics. -/
theorem C10_default_stats_order (stats : String → Option QueryStats)
    (queries : List String) (q1 q2 : String) (h2 : stats q2 = none) :
    query_priority stats q2 = 0 ∧
    (0 < query_priority stats q1 → q1 ∈ queries → q2 ∈ queries →
      (sortQueries stats queries).indexOf q1 <
        (sortQueries stats queries).indexOf q2) := by
  have hp2 : query_priority stats q2 = 0 := by
    simp [query_priority, h2]
  refine ⟨hp2, fun hpos hm1 hm2 => ?_⟩
  have hperm : (sortQueries stats queries).Perm queries :=
    List.mergeSort_perm queries _
  have hm1s : q1 ∈ sortQueries stats queries := hperm.mem_iff.mpr hm1
  have hm2s : q2 ∈ sortQueries stats queries := hperm.mem_iff.mpr hm2
  have hne : q1 ≠ q2 := by
    intro he
    rw [he, hp2] at hpos
    exact lt_irrefl 0 hpos
  have h1len : (sortQueries stats queries).indexOf q1
      < (sortQueries stats queries).length :=
    List.indexOf_lt_length.mpr hm1s
  have h2len : (sortQueries stats queries).indexOf q2
      < (sortQueries stats queries).length :=
    List.indexOf_lt_length.mpr hm2s
  by_contra hnot
  have hle : (sortQueries stats queries).indexOf q2
      ≤ (sortQueries stats queries).indexOf q1 := Nat.le_of_not_lt hnot
  have hneidx : (sortQueries stats queries).indexOf q2
      ≠ (sortQueries stats queries).indexOf q1 := by
    intro he
    exact hne ((List.indexOf_inj hm1s hm2s).mp he.symm)
  have hlt : (sortQueries stats queries).indexOf q2
      < (sortQueries stats queries).indexOf q1 :=
    Nat.lt_of_le_of_ne hle hneidx
  have hsorted := sortQueries_pairwise stats queries
  have hrel := (List.pairwise_iff_getElem.mp hsorted)
    ((sortQueries stats queries).indexOf q2)
    ((sortQueries stats queries).indexOf q1) h2len h1len hlt
  rw [List.getElem_indexOf h1len, List.getElem_indexOf h2len] at hrel
  rw [hp2] at hrel
  exact absurd (lt_of_lt_of_le hpos hrel) (lt_irrefl 0)

/-- Witness for C10: with recorded statistics of one valid out of two for
one query and none for the other, the recorded query is scheduled first. -/
theorem C10_default_stats_order_witness :
    (sortQueries
        (fun q => if q = "a" then some (QueryStats.mk 1 2) else none)
        ["b", "a"]).indexOf "a" <
    (sortQueries
        (fun q => if q = "a" then some (QueryStats.mk 1 2) else none)
        ["b", "a"]).indexOf "b" :=
  (C10_default_stats_order
      (fun q => if q = "a" then some (QueryStats.mk 1 2) else none)
      ["b", "a"] "a" "b" (by simp)).2
    (by norm_num [query_priority]) (by simp) (by simp)
